import Mathlib

/-!
Verification of the QPS rule-engine script (`auto_qps_rule_engine_ci.py`).

The script's JSON-ish records are modelled by `JVal`; Python dicts are
association lists with first-key-wins lookup and replace-or-append update,
which coincides with Python dict semantics on duplicate-free lists (Python
dicts never hold duplicate keys).  Python floats are modelled by exact
rationals (`ℚ`): every numeric constant of the source (`0.70`, `1.15`, …) is
taken at its decimal value, which is the arithmetic the spec states.
-/

/-- JSON-like values: numbers (ints and floats collapsed into `ℚ`),
strings, booleans, null, arrays and objects. -/
inductive JVal where
  | num : ℚ → JVal
  | str : String → JVal
  | bool : Bool → JVal
  | null : JVal
  | arr : List JVal → JVal
  | obj : List (String × JVal) → JVal

/-- A Python dict, as an association list (insertion order preserved). -/
abbrev Dict := List (String × JVal)

/-- Model of `d.get(k)`: first binding of `k`, if any. -/
def getKey : Dict → String → Option JVal
  | [], _ => none
  | (k', v) :: t, k => if k' = k then some v else getKey t k

/-- Model of `d[k] = v`: replace the first binding of `k` in place, else append. -/
def setItem : Dict → String → JVal → Dict
  | [], k, v => [(k, v)]
  | (k', v') :: t, k, v => if k' = k then (k, v) :: t else (k', v') :: setItem t k v

/-- Python truthiness of a `JVal` (`bool(x)`). -/
def truthy : JVal → Bool
  | .num q => q ≠ 0
  | .str s => s ≠ ""
  | .bool b => b
  | .null => false
  | .arr l => !l.isEmpty
  | .obj l => !l.isEmpty

/-- Python `x or d` applied to an optional lookup result: a missing key
(`None`) and any falsy value both fall back to the default. -/
def pyOr (x : Option JVal) (d : JVal) : JVal :=
  match x with
  | some v => if truthy v then v else d
  | none => d

/-- Python `str.lower()`, character-wise (the configured names are ASCII,
where `Char.toLower` agrees with Python). -/
def pyLower (s : String) : String := ⟨s.data.map Char.toLower⟩

/-- Python whitespace, as stripped by `str.strip()`. -/
def isPySpace (c : Char) : Bool :=
  c = ' ' || c = '\t' || c = '\n' || c = '\r' || c = '\x0b' || c = '\x0c'

/-- Python `str.strip()`: drop leading and trailing whitespace. -/
def pyStrip (s : String) : String :=
  ⟨((s.data.dropWhile isPySpace).reverse.dropWhile isPySpace).reverse⟩

/-- Helper for `str.split(",")`. -/
def splitCommaAux : List Char → List Char → List (List Char)
  | [], acc => [acc.reverse]
  | c :: rest, acc =>
    if c = ',' then acc.reverse :: splitCommaAux rest []
    else splitCommaAux rest (c :: acc)

/-- Python `str.split(",")` (`"".split(",") = [""]`, separators kept empty). -/
def pySplitComma (s : String) : List String :=
  (splitCommaAux s.data []).map (fun l => ⟨l⟩)

/-! Payload hardening (lines 66-120). -/

/-- Whether a `JVal` is a JSON list (`isinstance(x, list)`), the shape the
remote schema expects for `Size`, `OperatingSystem`, `Country`,
`blockedSsp`. -/
def isArrB : JVal → Bool
  | .arr _ => true
  | _ => false

/-- The `arr(x)` helper inside `ensure_inventory`: keep lists, anything else
(missing key, null, wrong shape) becomes the empty list.  Stated with the
`.arr` on the outside so that the result is a list by construction. -/
def arrOf (x : Option JVal) : JVal :=
  .arr (match x with
    | some (.arr l) => l
    | _ => [])

/-- Calling `.get` on a value that must be a dict: Python raises
`AttributeError` if a truthy non-dict got through the `or {}` coercion. -/
def asObj : JVal → Except String Dict
  | .obj l => .ok l
  | _ => .error "AttributeError: object has no attribute get"

/-- Translation of `ensure_inventory` (lines 66-88): normalize `Inventory` into the
`allowed`/`blocked` × six-category shape, defaulting every missing or
non-list leaf to `[]`.  A truthy non-dict `Inventory`, `allowed` or
`blocked` raises (the source calls `.get` on it), hence the `Except`. -/
def ensure_inventory (obj : Dict) : Except String Dict :=
  match asObj (pyOr (getKey obj "Inventory") (.obj [])) with
  | .error e => .error e
  | .ok invD =>
  match asObj (pyOr (getKey invD "allowed") (.obj [])) with
  | .error e => .error e
  | .ok allowedD =>
  match asObj (pyOr (getKey invD "blocked") (.obj [])) with
  | .error e => .error e
  | .ok blockedD =>
  .ok [("allowed", .obj
      [("app", arrOf (getKey allowedD "app")),
       ("site", arrOf (getKey allowedD "site")),
       ("publisher", arrOf (getKey allowedD "publisher")),
       ("crid", arrOf (getKey allowedD "crid")),
       ("adomain", arrOf (getKey allowedD "adomain")),
       ("displaymanager", arrOf (getKey allowedD "displaymanager"))]),
    ("blocked", .obj
      [("app", arrOf (getKey blockedD "app")),
       ("site", arrOf (getKey blockedD "site")),
       ("publisher", arrOf (getKey blockedD "publisher")),
       ("crid", arrOf (getKey blockedD "crid")),
       ("adomain", arrOf (getKey blockedD "adomain")),
       ("displaymanager", arrOf (getKey blockedD "displaymanager"))])]

/-- Shape check for one side of a normalized inventory: the six category
keys are present and hold lists. -/
def wfSide (l : Dict) : Bool :=
  ["app", "site", "publisher", "crid", "adomain", "displaymanager"].all
    (fun k =>
      match getKey l k with
      | some (.arr _) => true
      | _ => false)

/-- A well-formed `Inventory` value: an object with `allowed` and
`blocked` objects, each carrying the six list-valued categories. -/
def wfInventory : JVal → Bool
  | .obj l =>
    (match getKey l "allowed" with
     | some (.obj a) => wfSide a
     | _ => false)
    && (match getKey l "blocked" with
       | some (.obj b) => wfSide b
       | _ => false)
  | _ => false

/-- The read-only keys stripped by `scrub_readonly` (line 91). -/
def ro_keys : List String :=
  ["created_at", "updated_at", "createdAt", "updatedAt", "last_update", "lastUpdate", "_id"]

/-- Translation of `scrub_readonly` (lines 90-92): drop read-only keys, keep order. -/
def scrub_readonly (d : Dict) : Dict :=
  d.filter (fun kv => !(ro_keys.contains kv.1))

/-- Placeholder default for `Size` (line 104). -/
def sizeDefault : JVal := .arr [.obj [("code", .str "string")]]

/-- Placeholder default for `OperatingSystem` (line 105). -/
def osDefault : JVal := .arr [.obj [("key", .str "string"), ("name", .str "string")]]

/-- Placeholder default for `Country` (line 106). -/
def countryDefault : JVal := .arr [.obj [("country_code", .str "str")]]

/-- The `old_data` dict literal of `build_put_body` (lines 96-109). -/
def old_data_of (base : Dict) (dsp_id : ℤ) (inv : Dict) : Dict :=
  [("id", .num (dsp_id : ℚ)),
   ("api_endpoint", (getKey base "api_endpoint").getD ((getKey base "endpoint").getD (.str ""))),
   ("Company", (getKey base "Company").getD (.obj
      [("id", (getKey base "company_id").getD (.num 0)),
       ("name", (getKey base "company_name").getD (.str "")),
       ("api_key", (getKey base "api_key").getD (.str ""))])),
   ("Size", (getKey base "Size").getD sizeDefault),
   ("OperatingSystem", (getKey base "OperatingSystem").getD osDefault),
   ("Country", (getKey base "Country").getD countryDefault),
   ("blockedSsp", (getKey base "blockedSsp").getD (.arr [])),
   ("Inventory", .obj inv)]

/-- The value of `updated` after the item assignments of lines 110-119,
as a pure dict (derived from the heap translation below). -/
def updated_of (base : Dict) (dsp_id new_qps : ℤ) (inv : Dict) : Dict :=
  setItem (setItem (setItem (setItem (setItem (setItem (setItem (setItem base
    "id" (.num (dsp_id : ℚ)))
    "Inventory" (.obj inv))
    "Size" ((getKey base "Size").getD sizeDefault))
    "OperatingSystem" ((getKey base "OperatingSystem").getD osDefault))
    "Country" ((getKey base "Country").getD countryDefault))
    "blockedSsp" ((getKey base "blockedSsp").getD (.arr [])))
    "qps_limit" (.num (new_qps : ℚ)))
    "qps_Limit" (.num (new_qps : ℚ))

/-! A small heap of dict objects, so that the in-place item assignments of
`build_put_body` are modelled as real mutation: `scrub_readonly` and the
dict literals allocate fresh objects, `copy.deepcopy` copies, and
`updated[...] = ...` writes through a reference.  This is what makes the
"the input record is left unchanged" claim about `build_put_body`
meaningful rather than vacuous. -/

/-- A store of allocated dict objects: a memory map and the next fresh
address.  Nested values are immutable trees (`JVal`); the source only ever
mutates top-level keys of freshly built dicts, so this is faithful. -/
structure Heap where
  mem : ℕ → Dict
  next : ℕ

/-- An object reference (Python object identity). -/
abbrev Ref := ℕ

/-- Dereference. -/
def readRef (h : Heap) (r : Ref) : Dict := h.mem r

/-- Allocate a fresh dict object. -/
def alloc (h : Heap) (d : Dict) : Heap × Ref :=
  (⟨fun r => if r = h.next then d else h.mem r, h.next + 1⟩, h.next)

/-- Assignment `obj[k] = v` through a reference: in-place update of one object. -/
def writeItem (h : Heap) (r : Ref) (k : String) (v : JVal) : Heap :=
  ⟨fun r' => if r' = r then setItem (h.mem r) k v else h.mem r', h.next⟩

/-- Translation of `build_put_body` (lines 94-120) over the heap.  `base` is a fresh
filtered copy of `detail`; `old_data` is a fresh dict literal (whose
`Inventory` entry is the first `ensure_inventory` call); `updated` starts
as `copy.deepcopy(base)` and is then mutated in place, including a second
`ensure_inventory` call (line 112).  Returns the references to `oldData`
and `updatedData`. -/
def build_put_body (h0 : Heap) (detail : Ref) (dsp_id new_qps : ℤ) :
    Except String (Heap × Ref × Ref) :=
  let a1 := alloc h0 (scrub_readonly (readRef h0 detail))
  let h1 := a1.1
  let base := a1.2
  match ensure_inventory (readRef h1 base) with
  | .error e => .error e
  | .ok inv =>
    let a2 := alloc h1 (old_data_of (readRef h1 base) dsp_id inv)
    let h2 := a2.1
    let oldRef := a2.2
    let a3 := alloc h2 (readRef h2 base)
    let h3 := a3.1
    let updRef := a3.2
    let h4 := writeItem h3 updRef "id" (.num (dsp_id : ℚ))
    match ensure_inventory (readRef h4 base) with
    | .error e => .error e
    | .ok inv2 =>
      let h5 := writeItem h4 updRef "Inventory" (.obj inv2)
      let h6 := writeItem h5 updRef "Size" ((getKey (readRef h5 base) "Size").getD sizeDefault)
      let h7 := writeItem h6 updRef "OperatingSystem"
        ((getKey (readRef h6 base) "OperatingSystem").getD osDefault)
      let h8 := writeItem h7 updRef "Country"
        ((getKey (readRef h7 base) "Country").getD countryDefault)
      let h9 := writeItem h8 updRef "blockedSsp"
        ((getKey (readRef h8 base) "blockedSsp").getD (.arr []))
      let h10 := writeItem h9 updRef "qps_limit" (.num (new_qps : ℚ))
      let h11 := writeItem h10 updRef "qps_Limit" (.num (new_qps : ℚ))
      .ok (h11, oldRef, updRef)

/-- The empty store. -/
def emptyHeap : Heap := ⟨fun _ => [], 0⟩

/-- Heap component of a successful `build_put_body` result. -/
def resHeap (r : Except String (Heap × Ref × Ref)) : Heap :=
  match r with
  | .ok (h, _, _) => h
  | .error _ => emptyHeap

/-- The `oldData` reference of a successful `build_put_body` result. -/
def resOldRef (r : Except String (Heap × Ref × Ref)) : Ref :=
  match r with
  | .ok (_, o, _) => o
  | .error _ => 0

/-- The `updatedData` reference of a successful `build_put_body` result. -/
def resUpdRef (r : Except String (Heap × Ref × Ref)) : Ref :=
  match r with
  | .ok (_, _, u) => u
  | .error _ => 0

/-- The `updatedData` dict of a `build_put_body` result. -/
def updatedDict (r : Except String (Heap × Ref × Ref)) : Dict :=
  readRef (resHeap r) (resUpdRef r)

/-- Translation of the rule engine `decide_new_limit` (lines 123-143).
Arguments are optional to mirror the `srpm or 0` / `current_limit or 0`
coercions of absent/null inputs at the top of the Python function
(a passed `0` also coerces to `0`, so `Option.getD 0` is exact). -/
def decide_new_limit (srpm0 real_qps0 : Option ℚ) (current_limit0 : Option ℤ) :
    String × ℤ × String :=
  let srpm : ℚ := srpm0.getD 0
  let real_qps : ℚ := real_qps0.getD 0
  let current : ℤ := current_limit0.getD 0
  if srpm = 0 then
    ("set", 50, "sRPM==0 → set 50")
  else if 3 < srpm ∧ 0 < current ∧ (0.70 : ℚ) * current ≤ real_qps then
    ("increase", Int.ceil ((current : ℚ) * 1.15), "sRPM>3 & ≥70% → +15% (no cap)")
  else if (0.3 : ℚ) < srpm ∧ 0 < current ∧ (0.50 : ℚ) * current ≤ real_qps then
    ("increase", min 30000 (Int.ceil ((current : ℚ) * 1.15)),
      "sRPM>0.3 & ≥50% → +15% (cap 30000)")
  else if srpm < (0.2 : ℚ) ∧ 0 < current then
    ("decrease", max 500 (Int.ceil ((current : ℚ) * 0.85)), "sRPM<0.2 → −15% (floor 500)")
  else
    ("hold", current, "no change")

/-! Orchestrator: the `main` loop body, lines 163-219. -/

/-- Python `int(x)`: truncation toward zero for numbers, `True`/`False`
to `1`/`0`, numeric strings parsed, everything else raises.  (Exotic
string forms such as `"+1_0"` are not modelled; they only narrow the
domain, no claim involves them.) -/
def pyToInt : JVal → Except String ℤ
  | .num q => .ok (q.num.tdiv q.den)
  | .bool b => .ok (if b then 1 else 0)
  | .str s =>
    match s.trim.toInt? with
    | some n => .ok n
    | none => .error "ValueError: invalid literal for int"
  | .null => .error "TypeError: int of NoneType"
  | .arr _ => .error "TypeError: int of list"
  | .obj _ => .error "TypeError: int of dict"

/-- Python `float(x)`: numbers pass through, booleans are 1/0, anything
else raises.  (Parsing of numeric strings is not modelled and treated as
a failure; no claim depends on string-valued metrics.) -/
def pyToFloat : JVal → Except String ℚ
  | .num q => .ok q
  | .bool b => .ok (if b then 1 else 0)
  | _ => .error "TypeError or unmodelled float()"

/-- A partner listing entry as used by the loop: `id` and `name` are taken
after their unconditional coercions (lines 164-165); `sRPM` and `real_qps`
are the raw optional fields. -/
structure Summary where
  id : ℤ
  name : String
  sRPM : Option JVal
  real_qps : Option JVal

/-- The outbound-effect trace of one loop iteration. -/
inductive Call where
  | fetchDetail (dsp_id : ℤ)
  | putUpdate (dsp_id : ℤ) (oldData updatedData : Dict)

/-- The audit dict appended for an excluded partner (lines 171-176). -/
def excludedRecord (s : Summary) (srpm : ℚ) : Dict :=
  [("dsp_id", .num (s.id : ℚ)), ("name", .str s.name), ("sRPM", .num srpm),
   ("status", .str "skipped_excluded")]

/-- The audit dict appended when the detail fetch fails (lines 184-186):
note it has no `status` key. -/
def errorRecord (s : Summary) (e : String) : Dict :=
  [("dsp_id", .num (s.id : ℚ)), ("name", .str s.name),
   ("error", .str ("detail_get_failed: " ++ e))]

/-- The audit dict appended after a decision (lines 205-217). -/
def resultRecord (s : Summary) (srpm real_qps : ℚ) (current_limit : ℤ)
    (action : String) (new_limit : ℤ) (reason status http_status response : String) : Dict :=
  [("dsp_id", .num (s.id : ℚ)), ("name", .str s.name), ("sRPM", .num srpm),
   ("real_qps", .num real_qps), ("current_limit", .num (current_limit : ℚ)),
   ("action", .str action), ("new_limit", .num (new_limit : ℚ)),
   ("reason", .str reason), ("status", .str status),
   ("http_status", .str http_status), ("response", .str response)]

/-- The `EXCLUDED_NAMES` construction (lines 19-23): split the configuration string on
commas, keep entries whose strip is nonempty, normalize each to
stripped-lowercase. -/
def excluded_names (env : String) : List String :=
  ((pySplitComma env).filter (fun x => pyStrip x ≠ "")).map (fun x => pyLower (pyStrip x))

/-- One iteration of the `main` loop (lines 163-219) for a single partner.
External effects are oracles: `fetch` is the outcome `get_detail` would
produce, `putResp` the `(status_code, text)` of `put_update` if it is
called.  Returns the appended audit dict and the trace of remote calls
made; `.error` models an uncaught exception that kills the run (only
`get_detail` is inside a `try`).  The payload is built on a fresh
single-object store holding the fetched `detail`, faithful to a freshly
parsed JSON response. -/
def process_partner (excluded : List String) (s : Summary)
    (fetch : Except String Dict) (putResp : ℤ × String) :
    Except String (Dict × List Call) :=
  match pyToFloat (pyOr s.sRPM (.num 0)) with
  | .error e => .error e
  | .ok srpm =>
    if pyLower (pyStrip s.name) ∈ excluded then
      .ok (excludedRecord s srpm, [])
    else
      match fetch with
      | .error e => .ok (errorRecord s e, [Call.fetchDetail s.id])
      | .ok detail =>
        match pyToInt (pyOr (getKey detail "qps_limit")
            (pyOr (getKey detail "qps_Limit") (.num 0))) with
        | .error e => .error e
        | .ok current_limit =>
          match pyToFloat (pyOr (getKey detail "real_qps") (pyOr s.real_qps (.num 0))) with
          | .error e => .error e
          | .ok real_qps =>
            let dec := decide_new_limit (some srpm) (some real_qps) (some current_limit)
            if dec.1 ≠ "hold" ∧ dec.2.1 ≠ current_limit then
              match build_put_body ⟨fun r => if r = 0 then detail else [], 1⟩ 0 s.id dec.2.1 with
              | .error e => .error e
              | .ok (h', oldRef, updRef) =>
                .ok (resultRecord s srpm real_qps current_limit dec.1 dec.2.1 dec.2.2
                      (if 200 ≤ putResp.1 ∧ putResp.1 < 300 then "updated" else "failed")
                      (toString putResp.1) (putResp.2.take 200),
                    [Call.fetchDetail s.id,
                     Call.putUpdate s.id (readRef h' oldRef) (readRef h' updRef)])
            else
              .ok (resultRecord s srpm real_qps current_limit dec.1 dec.2.1 dec.2.2
                    "skipped" "" "", [Call.fetchDetail s.id])

/-! Sanity checks on the spec's worked examples. -/

example : decide_new_limit (some 0) (some 99) (some 1000) = ("set", 50, "sRPM==0 → set 50") := by
  norm_num [decide_new_limit]

example : decide_new_limit (some 4) (some 15000) (some 20000)
    = ("increase", 23000, "sRPM>3 & ≥70% → +15% (no cap)") := by norm_num [decide_new_limit]

example : decide_new_limit (some 1) (some 14000) (some 27000)
    = ("increase", 30000, "sRPM>0.3 & ≥50% → +15% (cap 30000)") := by
  norm_num [decide_new_limit]

example : decide_new_limit (some (0.1 : ℚ)) (some 0) (some 600)
    = ("decrease", 510, "sRPM<0.2 → −15% (floor 500)") := by norm_num [decide_new_limit]

example : decide_new_limit (some 1) (some 100) (some 1000) = ("hold", 1000, "no change") := by
  norm_num [decide_new_limit]

/-- C1: `sRPM == 0` (after the `or 0` coercion) forces `("set", 50)` no
matter what `realQps` and `currentLimit` are. -/
theorem decide_srpm_zero (srpm0 real_qps0 : Option ℚ) (current_limit0 : Option ℤ)
    (h : srpm0.getD 0 = 0) :
    decide_new_limit srpm0 real_qps0 current_limit0 = ("set", 50, "sRPM==0 → set 50") := by
  simp [decide_new_limit, h]

/-- Witness for C1: at `sRPM = 0`, `realQps = 99`, `currentLimit = 1000`. -/
theorem decide_srpm_zero_witness :
    decide_new_limit (some 0) (some 99) (some 1000) = ("set", 50, "sRPM==0 → set 50") :=
  decide_srpm_zero (some 0) (some 99) (some 1000) rfl

/-- C2: when `sRPM > 3`, `currentLimit > 0` and `realQps ≥ 0.70 × currentLimit`
(boundary inclusive), the result is `increase` to `⌈currentLimit × 1.15⌉` with
no cap; this branch precedes the `sRPM > 0.3` branch, so inputs satisfying
both conditions get this uncapped result. -/
theorem decide_srpm_gt3 (s rq : ℚ) (c : ℤ) (h1 : 3 < s) (h2 : 0 < c)
    (h3 : (0.70 : ℚ) * c ≤ rq) :
    decide_new_limit (some s) (some rq) (some c)
      = ("increase", Int.ceil ((c : ℚ) * 1.15), "sRPM>3 & ≥70% → +15% (no cap)") := by
  have hs0 : s ≠ 0 := by intro h; rw [h] at h1; norm_num at h1
  simp [decide_new_limit, hs0, h1, h2, h3]

/-- Witness for C2: `currentLimit = 20000`, `sRPM = 4`, `realQps = 15000`
(an input also satisfying the capped rule's conditions) yields the uncapped
result `23000`. -/
theorem decide_srpm_gt3_witness :
    decide_new_limit (some 4) (some 15000) (some 20000)
      = ("increase", 23000, "sRPM>3 & ≥70% → +15% (no cap)") := by
  have h := decide_srpm_gt3 4 15000 20000 (by norm_num) (by norm_num) (by norm_num)
  have hc : (⌈((20000 : ℤ) : ℚ) * 1.15⌉ : ℤ) = 23000 := Int.ceil_eq_iff.mpr (by norm_num)
  rw [h, hc]

/-- C3: when the `sRPM == 0` and `sRPM > 3` rules do not fire but
`sRPM > 0.3`, `currentLimit > 0` and `realQps ≥ 0.50 × currentLimit`, the
result is `increase` to `min 30000 ⌈currentLimit × 1.15⌉`. -/
theorem decide_srpm_mid (s rq : ℚ) (c : ℤ) (h0 : s ≠ 0)
    (h1 : ¬(3 < s ∧ 0 < c ∧ (0.70 : ℚ) * c ≤ rq))
    (h2 : (0.3 : ℚ) < s) (h3 : 0 < c) (h4 : (0.50 : ℚ) * c ≤ rq) :
    decide_new_limit (some s) (some rq) (some c)
      = ("increase", min 30000 (Int.ceil ((c : ℚ) * 1.15)),
          "sRPM>0.3 & ≥50% → +15% (cap 30000)") := by
  simp [decide_new_limit, h0, h1, h2, h3, h4]
  intro h5
  by_contra h6
  push_neg at h6
  exact h1 ⟨h5, h3, h6⟩

/-- Witness for C3: `currentLimit = 27000`, `sRPM = 1`, `realQps = 14000`
(the 50% boundary) caps the growth at 30000 even though
`⌈27000 × 1.15⌉ = 31050`. -/
theorem decide_srpm_mid_witness :
    decide_new_limit (some 1) (some 14000) (some 27000)
      = ("increase", 30000, "sRPM>0.3 & ≥50% → +15% (cap 30000)") := by
  have h := decide_srpm_mid 1 14000 27000 (by norm_num) (by norm_num) (by norm_num)
    (by norm_num) (by norm_num)
  have hc : (⌈((27000 : ℤ) : ℚ) * 1.15⌉ : ℤ) = 31050 := Int.ceil_eq_iff.mpr (by norm_num)
  rw [h, hc]; decide

/-- C4: when no earlier rule fires, `sRPM < 0.2` and `currentLimit > 0`
give `decrease` to `max 500 ⌈currentLimit × 0.85⌉` (floor 500).  With
`sRPM ≠ 0` and `sRPM < 0.2` the two `increase` rules cannot fire, so those
are the only hypotheses needed. -/
theorem decide_srpm_low (s rq : ℚ) (c : ℤ) (h0 : s ≠ 0) (h1 : s < (0.2 : ℚ)) (h2 : 0 < c) :
    decide_new_limit (some s) (some rq) (some c)
      = ("decrease", max 500 (Int.ceil ((c : ℚ) * 0.85)), "sRPM<0.2 → −15% (floor 500)") := by
  have hn3 : ¬(3 < s) := by intro h; nlinarith
  have hn03 : ¬((0.3 : ℚ) < s) := by intro h; nlinarith
  simp [decide_new_limit, h0, h1, h2, hn3, hn03]

/-- Witness for C4: `currentLimit = 600` shrinks to `510`, while
`currentLimit = 550` hits the floor `500` (not `⌈550 × 0.85⌉ = 468`). -/
theorem decide_srpm_low_witness :
    decide_new_limit (some (0.1 : ℚ)) (some 0) (some 600)
        = ("decrease", 510, "sRPM<0.2 → −15% (floor 500)")
      ∧ decide_new_limit (some (0.1 : ℚ)) (some 0) (some 550)
        = ("decrease", 500, "sRPM<0.2 → −15% (floor 500)") := by
  constructor
  · have h := decide_srpm_low (0.1 : ℚ) 0 600 (by norm_num) (by norm_num) (by norm_num)
    have hc : (⌈((600 : ℤ) : ℚ) * 0.85⌉ : ℤ) = 510 := Int.ceil_eq_iff.mpr (by norm_num)
    rw [h, hc]; decide
  · have h := decide_srpm_low (0.1 : ℚ) 0 550 (by norm_num) (by norm_num) (by norm_num)
    have hc : (⌈((550 : ℤ) : ℚ) * 0.85⌉ : ℤ) = 468 := Int.ceil_eq_iff.mpr (by norm_num)
    rw [h, hc]; decide

/-! Dict and heap lemmas. -/

theorem getKey_setItem_self (d : Dict) (k : String) (v : JVal) :
    getKey (setItem d k v) k = some v := by
  induction d with
  | nil => simp [setItem, getKey]
  | cons kv t ih =>
    obtain ⟨k₁, v₁⟩ := kv
    by_cases h : k₁ = k
    · simp [setItem, getKey, h]
    · simp [setItem, getKey, h, ih]

theorem getKey_setItem_ne (d : Dict) (k k' : String) (v : JVal) (h : k' ≠ k) :
    getKey (setItem d k v) k' = getKey d k' := by
  induction d with
  | nil => simp [setItem, getKey, Ne.symm h]
  | cons kv t ih =>
    obtain ⟨k₁, v₁⟩ := kv
    by_cases h1 : k₁ = k
    · subst h1
      simp [setItem, getKey, Ne.symm h]
    · simp [setItem, getKey, h1, ih]

theorem ensure_inventory_wf (obj inv : Dict) (h : ensure_inventory obj = .ok inv) :
    wfInventory (.obj inv) = true := by
  unfold ensure_inventory at h
  split at h
  · exact Except.noConfusion h
  · split at h
    · exact Except.noConfusion h
    · split at h
      · exact Except.noConfusion h
      · injection h with h2
        subst h2
        rfl

theorem build_put_body_err (h0 : Heap) (d : Ref) (i q : ℤ) (e : String)
    (hinv : ensure_inventory (scrub_readonly (readRef h0 d)) = .error e) :
    build_put_body h0 d i q = .error e := by
  simp only [readRef] at hinv
  simp [build_put_body, alloc, readRef, hinv]

theorem build_put_body_spec (h0 : Heap) (d : Ref) (i q : ℤ) (inv : Dict)
    (hinv : ensure_inventory (scrub_readonly (readRef h0 d)) = .ok inv) :
    ∃ h', build_put_body h0 d i q = .ok (h', h0.next + 1, h0.next + 2) ∧
      readRef h' (h0.next + 1) = old_data_of (scrub_readonly (readRef h0 d)) i inv ∧
      readRef h' (h0.next + 2) = updated_of (scrub_readonly (readRef h0 d)) i q inv ∧
      ∀ r, r < h0.next → readRef h' r = readRef h0 r := by
  simp only [readRef] at hinv
  dsimp only [build_put_body, alloc, writeItem, readRef]
  simp only [Nat.add_assoc]
  norm_num [self_eq_add_right, add_right_inj, hinv]
  constructor
  · rfl
  · intro r hr
    repeat rw [if_neg (by omega)]

theorem updated_of_qps_Limit (b : Dict) (i q : ℤ) (inv : Dict) :
    getKey (updated_of b i q inv) "qps_Limit" = some (.num (q : ℚ)) := by
  unfold updated_of
  exact getKey_setItem_self _ _ _

theorem updated_of_qps_limit (b : Dict) (i q : ℤ) (inv : Dict) :
    getKey (updated_of b i q inv) "qps_limit" = some (.num (q : ℚ)) := by
  unfold updated_of
  rw [getKey_setItem_ne _ _ _ _ (by decide)]
  exact getKey_setItem_self _ _ _

theorem updated_of_Inventory (b : Dict) (i q : ℤ) (inv : Dict) :
    getKey (updated_of b i q inv) "Inventory" = some (.obj inv) := by
  unfold updated_of
  rw [getKey_setItem_ne _ _ _ _ (by decide), getKey_setItem_ne _ _ _ _ (by decide),
    getKey_setItem_ne _ _ _ _ (by decide), getKey_setItem_ne _ _ _ _ (by decide),
    getKey_setItem_ne _ _ _ _ (by decide), getKey_setItem_ne _ _ _ _ (by decide)]
  exact getKey_setItem_self _ _ _

theorem updated_of_Size (b : Dict) (i q : ℤ) (inv : Dict) :
    getKey (updated_of b i q inv) "Size" = some ((getKey b "Size").getD sizeDefault) := by
  unfold updated_of
  rw [getKey_setItem_ne _ _ _ _ (by decide), getKey_setItem_ne _ _ _ _ (by decide),
    getKey_setItem_ne _ _ _ _ (by decide), getKey_setItem_ne _ _ _ _ (by decide),
    getKey_setItem_ne _ _ _ _ (by decide)]
  exact getKey_setItem_self _ _ _

theorem updated_of_OperatingSystem (b : Dict) (i q : ℤ) (inv : Dict) :
    getKey (updated_of b i q inv) "OperatingSystem"
      = some ((getKey b "OperatingSystem").getD osDefault) := by
  unfold updated_of
  rw [getKey_setItem_ne _ _ _ _ (by decide), getKey_setItem_ne _ _ _ _ (by decide),
    getKey_setItem_ne _ _ _ _ (by decide), getKey_setItem_ne _ _ _ _ (by decide)]
  exact getKey_setItem_self _ _ _

theorem updated_of_Country (b : Dict) (i q : ℤ) (inv : Dict) :
    getKey (updated_of b i q inv) "Country" = some ((getKey b "Country").getD countryDefault) := by
  unfold updated_of
  rw [getKey_setItem_ne _ _ _ _ (by decide), getKey_setItem_ne _ _ _ _ (by decide),
    getKey_setItem_ne _ _ _ _ (by decide)]
  exact getKey_setItem_self _ _ _

theorem updated_of_blockedSsp (b : Dict) (i q : ℤ) (inv : Dict) :
    getKey (updated_of b i q inv) "blockedSsp"
      = some ((getKey b "blockedSsp").getD (.arr [])) := by
  unfold updated_of
  rw [getKey_setItem_ne _ _ _ _ (by decide), getKey_setItem_ne _ _ _ _ (by decide)]
  exact getKey_setItem_self _ _ _

/-- C7 counterexample: a detail record that carries `Size` with a null
value keeps that null in `updatedData` — `base.get("Size", default)`
returns the stored `None`, so the field is not well-formed (not a list),
contrary to the claim that null/wrong-shaped values are also normalized. -/
theorem build_updated_size_null_cex :
    getKey (updatedDict (build_put_body ⟨fun r => if r = 0 then [("Size", JVal.null)] else [], 1⟩
        0 1 100)) "Size" = some JVal.null
      ∧ isArrB JVal.null = false := by
  exact ⟨rfl, rfl⟩

/-- C7 amended: whenever `build_put_body` succeeds, `updatedData` holds a
fully normalized well-formed `Inventory`, both `qps_limit` and `qps_Limit`
set to the identical new limit, and `Size` / `OperatingSystem` / `Country`
/ `blockedSsp` present — equal to the scrubbed source value when the key
exists (even if null or wrong-shaped) and to the documented placeholder
default (a well-formed list) when it does not. -/
theorem build_updated_fields (h0 : Heap) (d : Ref) (i q : ℤ) (h' : Heap) (o u : Ref)
    (hok : build_put_body h0 d i q = .ok (h', o, u)) :
    ∃ inv, ensure_inventory (scrub_readonly (readRef h0 d)) = .ok inv ∧
      wfInventory (.obj inv) = true ∧
      getKey (readRef h' u) "qps_limit" = some (.num (q : ℚ)) ∧
      getKey (readRef h' u) "qps_Limit" = some (.num (q : ℚ)) ∧
      getKey (readRef h' u) "Inventory" = some (.obj inv) ∧
      getKey (readRef h' u) "Size"
        = some ((getKey (scrub_readonly (readRef h0 d)) "Size").getD sizeDefault) ∧
      getKey (readRef h' u) "OperatingSystem"
        = some ((getKey (scrub_readonly (readRef h0 d)) "OperatingSystem").getD osDefault) ∧
      getKey (readRef h' u) "Country"
        = some ((getKey (scrub_readonly (readRef h0 d)) "Country").getD countryDefault) ∧
      getKey (readRef h' u) "blockedSsp"
        = some ((getKey (scrub_readonly (readRef h0 d)) "blockedSsp").getD (.arr [])) := by
  cases hi : ensure_inventory (scrub_readonly (readRef h0 d)) with
  | error e =>
    rw [build_put_body_err h0 d i q e hi] at hok
    exact Except.noConfusion hok
  | ok inv =>
    obtain ⟨h'', hb, _, hupd, _⟩ := build_put_body_spec h0 d i q inv hi
    rw [hb] at hok
    injection hok with h1
    simp only [Prod.mk.injEq] at h1
    obtain ⟨h2, _, h4⟩ := h1
    subst h2
    subst h4
    rw [hupd]
    exact ⟨inv, rfl, ensure_inventory_wf _ _ hi, updated_of_qps_limit _ _ _ _,
      updated_of_qps_Limit _ _ _ _, updated_of_Inventory _ _ _ _, updated_of_Size _ _ _ _,
      updated_of_OperatingSystem _ _ _ _, updated_of_Country _ _ _ _,
      updated_of_blockedSsp _ _ _ _⟩

/-- Witness for the amended C7 at a concrete one-object store. -/
theorem build_updated_fields_witness :
    ∃ inv, ensure_inventory (scrub_readonly
        (readRef ⟨fun r => if r = 0 then [("qps_limit", JVal.num 5)] else [], 1⟩ 0)) = .ok inv ∧
      wfInventory (.obj inv) = true ∧
      getKey (readRef (resHeap (build_put_body
          ⟨fun r => if r = 0 then [("qps_limit", JVal.num 5)] else [], 1⟩ 0 2 60))
          (resUpdRef (build_put_body
          ⟨fun r => if r = 0 then [("qps_limit", JVal.num 5)] else [], 1⟩ 0 2 60)))
        "qps_limit" = some (.num ((60 : ℤ) : ℚ)) ∧
      getKey (readRef (resHeap (build_put_body
          ⟨fun r => if r = 0 then [("qps_limit", JVal.num 5)] else [], 1⟩ 0 2 60))
          (resUpdRef (build_put_body
          ⟨fun r => if r = 0 then [("qps_limit", JVal.num 5)] else [], 1⟩ 0 2 60)))
        "qps_Limit" = some (.num ((60 : ℤ) : ℚ)) ∧
      getKey (readRef (resHeap (build_put_body
          ⟨fun r => if r = 0 then [("qps_limit", JVal.num 5)] else [], 1⟩ 0 2 60))
          (resUpdRef (build_put_body
          ⟨fun r => if r = 0 then [("qps_limit", JVal.num 5)] else [], 1⟩ 0 2 60)))
        "Inventory" = some (.obj inv) ∧
      getKey (readRef (resHeap (build_put_body
          ⟨fun r => if r = 0 then [("qps_limit", JVal.num 5)] else [], 1⟩ 0 2 60))
          (resUpdRef (build_put_body
          ⟨fun r => if r = 0 then [("qps_limit", JVal.num 5)] else [], 1⟩ 0 2 60)))
        "Size" = some ((getKey (scrub_readonly (readRef
          ⟨fun r => if r = 0 then [("qps_limit", JVal.num 5)] else [], 1⟩ 0)) "Size").getD
            sizeDefault) ∧
      getKey (readRef (resHeap (build_put_body
          ⟨fun r => if r = 0 then [("qps_limit", JVal.num 5)] else [], 1⟩ 0 2 60))
          (resUpdRef (build_put_body
          ⟨fun r => if r = 0 then [("qps_limit", JVal.num 5)] else [], 1⟩ 0 2 60)))
        "OperatingSystem" = some ((getKey (scrub_readonly (readRef
          ⟨fun r => if r = 0 then [("qps_limit", JVal.num 5)] else [], 1⟩ 0))
            "OperatingSystem").getD osDefault) ∧
      getKey (readRef (resHeap (build_put_body
          ⟨fun r => if r = 0 then [("qps_limit", JVal.num 5)] else [], 1⟩ 0 2 60))
          (resUpdRef (build_put_body
          ⟨fun r => if r = 0 then [("qps_limit", JVal.num 5)] else [], 1⟩ 0 2 60)))
        "Country" = some ((getKey (scrub_readonly (readRef
          ⟨fun r => if r = 0 then [("qps_limit", JVal.num 5)] else [], 1⟩ 0)) "Country").getD
            countryDefault) ∧
      getKey (readRef (resHeap (build_put_body
          ⟨fun r => if r = 0 then [("qps_limit", JVal.num 5)] else [], 1⟩ 0 2 60))
          (resUpdRef (build_put_body
          ⟨fun r => if r = 0 then [("qps_limit", JVal.num 5)] else [], 1⟩ 0 2 60)))
        "blockedSsp" = some ((getKey (scrub_readonly (readRef
          ⟨fun r => if r = 0 then [("qps_limit", JVal.num 5)] else [], 1⟩ 0)) "blockedSsp").getD
            (.arr [])) :=
  build_updated_fields ⟨fun r => if r = 0 then [("qps_limit", JVal.num 5)] else [], 1⟩ 0 2 60
    (resHeap (build_put_body ⟨fun r => if r = 0 then [("qps_limit", JVal.num 5)] else [], 1⟩
      0 2 60))
    (resOldRef (build_put_body ⟨fun r => if r = 0 then [("qps_limit", JVal.num 5)] else [], 1⟩
      0 2 60))
    (resUpdRef (build_put_body ⟨fun r => if r = 0 then [("qps_limit", JVal.num 5)] else [], 1⟩
      0 2 60))
    rfl

/-- C10: `build_put_body` never mutates its `detail` argument: for any
allocated input object, the heap cell of `detail` after a successful call
is exactly what it was before (the builder works on a filtered copy and a
deep copy and writes only to the fresh `updated` object). -/
theorem build_frame (h0 : Heap) (d : Ref) (i q : ℤ) (h' : Heap) (o u : Ref)
    (hd : d < h0.next) (hok : build_put_body h0 d i q = .ok (h', o, u)) :
    readRef h' d = readRef h0 d := by
  cases hi : ensure_inventory (scrub_readonly (readRef h0 d)) with
  | error e =>
    rw [build_put_body_err h0 d i q e hi] at hok
    exact Except.noConfusion hok
  | ok inv =>
    obtain ⟨h'', hb, _, _, hframe⟩ := build_put_body_spec h0 d i q inv hi
    rw [hb] at hok
    injection hok with h1
    simp only [Prod.mk.injEq] at h1
    obtain ⟨h2, _, _⟩ := h1
    subst h2
    exact hframe d hd

/-- Witness for C10 at a concrete one-object store. -/
theorem build_frame_witness :
    readRef (resHeap (build_put_body
        ⟨fun r => if r = 0 then [("qps_limit", JVal.num 5), ("created_at", JVal.str "t")]
          else [], 1⟩ 0 2 60)) 0
      = readRef ⟨fun r => if r = 0 then [("qps_limit", JVal.num 5), ("created_at", JVal.str "t")]
          else [], 1⟩ 0 :=
  build_frame ⟨fun r => if r = 0 then [("qps_limit", JVal.num 5), ("created_at", JVal.str "t")]
      else [], 1⟩ 0 2 60
    (resHeap (build_put_body ⟨fun r => if r = 0 then [("qps_limit", JVal.num 5),
      ("created_at", JVal.str "t")] else [], 1⟩ 0 2 60))
    (resOldRef (build_put_body ⟨fun r => if r = 0 then [("qps_limit", JVal.num 5),
      ("created_at", JVal.str "t")] else [], 1⟩ 0 2 60))
    (resUpdRef (build_put_body ⟨fun r => if r = 0 then [("qps_limit", JVal.num 5),
      ("created_at", JVal.str "t")] else [], 1⟩ 0 2 60))
    (by decide) rfl

/-- C5: after a successful detail fetch, when the decision's action is
`hold` or the computed new limit equals the current limit, the iteration
records `skipped` and makes no `put_update` call (the only remote call is
the detail fetch itself). -/
theorem orchestrator_skip_noop (excluded : List String) (s : Summary) (detail : Dict)
    (putResp : ℤ × String) (srpm real_qps : ℚ) (current_limit : ℤ)
    (hex : pyLower (pyStrip s.name) ∉ excluded)
    (hs : pyToFloat (pyOr s.sRPM (.num 0)) = .ok srpm)
    (hcl : pyToInt (pyOr (getKey detail "qps_limit") (pyOr (getKey detail "qps_Limit") (.num 0)))
      = .ok current_limit)
    (hrq : pyToFloat (pyOr (getKey detail "real_qps") (pyOr s.real_qps (.num 0))) = .ok real_qps)
    (hdec : (decide_new_limit (some srpm) (some real_qps) (some current_limit)).1 = "hold"
      ∨ (decide_new_limit (some srpm) (some real_qps) (some current_limit)).2.1 = current_limit) :
    process_partner excluded s (.ok detail) putResp
      = .ok (resultRecord s srpm real_qps current_limit
          (decide_new_limit (some srpm) (some real_qps) (some current_limit)).1
          (decide_new_limit (some srpm) (some real_qps) (some current_limit)).2.1
          (decide_new_limit (some srpm) (some real_qps) (some current_limit)).2.2
          "skipped" "" "", [Call.fetchDetail s.id])
      ∧ getKey (resultRecord s srpm real_qps current_limit
          (decide_new_limit (some srpm) (some real_qps) (some current_limit)).1
          (decide_new_limit (some srpm) (some real_qps) (some current_limit)).2.1
          (decide_new_limit (some srpm) (some real_qps) (some current_limit)).2.2
          "skipped" "" "") "status" = some (.str "skipped") := by
  have hcond : ¬((decide_new_limit (some srpm) (some real_qps) (some current_limit)).1 ≠ "hold"
      ∧ (decide_new_limit (some srpm) (some real_qps) (some current_limit)).2.1
        ≠ current_limit) := by
    rcases hdec with h | h
    · exact fun hc => hc.1 h
    · exact fun hc => hc.2 h
  constructor
  · simp only [process_partner, hs, hcl, hrq]
    simp [hex, hcond]
  · rfl

/-- Witness for C5: `sRPM = 1`, `realQps = 0`, `currentLimit = 1000` is a
`hold` decision; the iteration is `skipped` with only the fetch call. -/
theorem orchestrator_skip_noop_witness :
    process_partner [] ⟨1, "alpha", some (JVal.num 1), none⟩
        (.ok [("qps_limit", JVal.num 1000)]) (200, "ok")
      = .ok (resultRecord ⟨1, "alpha", some (JVal.num 1), none⟩ 1 0 1000
          "hold" 1000 "no change" "skipped" "" "", [Call.fetchDetail 1]) := by
  have hdec : decide_new_limit (some 1) (some 0) (some 1000) = ("hold", 1000, "no change") := by
    norm_num [decide_new_limit]
  have h := (orchestrator_skip_noop [] ⟨1, "alpha", some (JVal.num 1), none⟩
    [("qps_limit", JVal.num 1000)] (200, "ok") 1 0 1000 (by decide) rfl rfl rfl
    (Or.inl (by rw [hdec]))).1
  rw [h, hdec]

/-- C6: a partner whose stripped-lowercased name is in the configured
exclusion set is recorded as `skipped_excluded` with no remote call at
all: no detail fetch, no payload, no update. -/
theorem orchestrator_excluded (env : String) (s : Summary) (fetch : Except String Dict)
    (putResp : ℤ × String) (srpm : ℚ)
    (hs : pyToFloat (pyOr s.sRPM (.num 0)) = .ok srpm)
    (hex : pyLower (pyStrip s.name) ∈ excluded_names env) :
    process_partner (excluded_names env) s fetch putResp = .ok (excludedRecord s srpm, [])
      ∧ getKey (excludedRecord s srpm) "status" = some (.str "skipped_excluded") := by
  constructor
  · simp only [process_partner, hs]
    simp [hex]
  · rfl

/-- Witness for C6: `" MEDIA.net "` matches the default exclusion
`"Media.Net"` case-insensitively; the result is `skipped_excluded` with an
empty call trace, whatever the fetch oracle would have returned. -/
theorem orchestrator_excluded_witness :
    process_partner (excluded_names "Media.Net") ⟨7, " MEDIA.net ", some (JVal.num 2), none⟩
        (.error "ignored") (0, "")
      = .ok (excludedRecord ⟨7, " MEDIA.net ", some (JVal.num 2), none⟩ 2, []) :=
  (orchestrator_excluded "Media.Net" ⟨7, " MEDIA.net ", some (JVal.num 2), none⟩
    (.error "ignored") (0, "") 2 rfl (by decide)).1

/-- C9 counterexample: a partner whose detail fetch fails is recorded as
`{"dsp_id", "name", "error"}` with NO `status` key at all (lines 184-186),
so not every audit record carries a status from
`{updated, failed, skipped, skipped_excluded}`. -/
theorem audit_status_cex :
    process_partner [] ⟨7, "x", some (JVal.num 1), none⟩ (.error "boom") (0, "")
      = .ok (errorRecord ⟨7, "x", some (JVal.num 1), none⟩ "boom", [Call.fetchDetail 7])
      ∧ getKey (errorRecord ⟨7, "x", some (JVal.num 1), none⟩ "boom") "status" = none
      ∧ getKey (errorRecord ⟨7, "x", some (JVal.num 1), none⟩ "boom") "error"
        = some (.str "detail_get_failed: boom") :=
  ⟨rfl, rfl, rfl⟩

/-- C9 amended: every audit record appended by a completed iteration
either carries a status in `{updated, failed, skipped, skipped_excluded}`,
or is the fetch-failure record, which has no status field but carries the
captured error (and no decision was computed for it). -/
theorem audit_status_values (excluded : List String) (s : Summary) (fetch : Except String Dict)
    (putResp : ℤ × String) (rec : Dict) (calls : List Call)
    (hok : process_partner excluded s fetch putResp = .ok (rec, calls)) :
    (getKey rec "status" = some (.str "updated") ∨ getKey rec "status" = some (.str "failed")
      ∨ getKey rec "status" = some (.str "skipped")
      ∨ getKey rec "status" = some (.str "skipped_excluded"))
    ∨ (getKey rec "status" = none
        ∧ ∃ e, fetch = .error e
          ∧ getKey rec "error" = some (.str ("detail_get_failed: " ++ e))) := by
  simp only [process_partner] at hok
  split at hok
  · exact Except.noConfusion hok
  · split at hok
    · -- excluded: status = skipped_excluded
      injection hok with h1
      simp only [Prod.mk.injEq] at h1
      obtain ⟨h2, _⟩ := h1
      subst h2
      exact Or.inl (Or.inr (Or.inr (Or.inr rfl)))
    · split at hok
      · -- fetch failed: no status key, error captured
        injection hok with h1
        simp only [Prod.mk.injEq] at h1
        obtain ⟨h2, _⟩ := h1
        subst h2
        exact Or.inr ⟨rfl, _, rfl, rfl⟩
      · split at hok
        · exact Except.noConfusion hok
        · split at hok
          · exact Except.noConfusion hok
          · split at hok
            · split at hok
              · exact Except.noConfusion hok
              · -- update submitted: 2xx → updated, else failed
                injection hok with h1
                simp only [Prod.mk.injEq] at h1
                obtain ⟨h2, _⟩ := h1
                subst h2
                by_cases hc : 200 ≤ putResp.1 ∧ putResp.1 < 300
                · refine Or.inl (Or.inl ?_)
                  rw [if_pos hc]
                  exact rfl
                · refine Or.inl (Or.inr (Or.inl ?_))
                  rw [if_neg hc]
                  exact rfl
            · -- no-op: skipped
              injection hok with h1
              simp only [Prod.mk.injEq] at h1
              obtain ⟨h2, _⟩ := h1
              subst h2
              exact Or.inl (Or.inr (Or.inr (Or.inl rfl)))

/-- Witness for the amended C9: an excluded partner's record carries
`skipped_excluded`. -/
theorem audit_status_values_witness :
    (getKey (excludedRecord ⟨1, "a", some (JVal.num 1), none⟩ 1) "status"
        = some (.str "updated")
      ∨ getKey (excludedRecord ⟨1, "a", some (JVal.num 1), none⟩ 1) "status"
        = some (.str "failed")
      ∨ getKey (excludedRecord ⟨1, "a", some (JVal.num 1), none⟩ 1) "status"
        = some (.str "skipped")
      ∨ getKey (excludedRecord ⟨1, "a", some (JVal.num 1), none⟩ 1) "status"
        = some (.str "skipped_excluded"))
    ∨ (getKey (excludedRecord ⟨1, "a", some (JVal.num 1), none⟩ 1) "status" = none
        ∧ ∃ e, (Except.ok ([] : Dict) : Except String Dict) = .error e
          ∧ getKey (excludedRecord ⟨1, "a", some (JVal.num 1), none⟩ 1) "error"
            = some (.str ("detail_get_failed: " ++ e))) :=
  audit_status_values ["a"] ⟨1, "a", some (JVal.num 1), none⟩ (.ok []) (0, "")
    (excludedRecord ⟨1, "a", some (JVal.num 1), none⟩ 1) [] rfl

/-- C8 counterexample: with a negative `currentLimit` (any sRPM outside
every rule's guard), the `hold` branch returns the current limit
unchanged, so the returned `newLimit` is negative. -/
theorem decide_newlimit_negative_cex :
    (decide_new_limit (some 1) (some 5) (some (-10))).2.1 < 0 := by
  have h : decide_new_limit (some 1) (some 5) (some (-10)) = ("hold", -10, "no change") := by
    norm_num [decide_new_limit]
  rw [h]
  decide

/-- C8 amended: whenever the coerced `currentLimit` is non-negative (which
holds for every absent/null input and every genuine limit), the returned
`newLimit` is non-negative; a negative `currentLimit` is passed through
unchanged only by the `hold` branch. -/
theorem decide_newlimit_nonneg (s0 rq0 : Option ℚ) (c0 : Option ℤ) (hc : 0 ≤ c0.getD 0) :
    0 ≤ (decide_new_limit s0 rq0 c0).2.1 := by
  simp only [decide_new_limit]
  split_ifs with h1 h2 h3 h4
  · norm_num
  · have hcp : (0 : ℚ) ≤ (c0.getD 0 : ℚ) := by exact_mod_cast hc
    exact Int.ceil_nonneg (by nlinarith)
  · have hcp : (0 : ℚ) ≤ (c0.getD 0 : ℚ) := by exact_mod_cast hc
    exact le_min (by norm_num) (Int.ceil_nonneg (by nlinarith))
  · exact le_trans (by norm_num) (le_max_left 500 _)
  · exact hc

/-- Witness for the amended C8 at `sRPM = 1`, `realQps = 0`,
`currentLimit = 5`. -/
theorem decide_newlimit_nonneg_witness :
    0 ≤ (decide_new_limit (some 1) (some 0) (some 5)).2.1 :=
  decide_newlimit_nonneg (some 1) (some 0) (some 5) (by decide)
